import Mathlib

/-
Verification development for the XEP-0030 service discovery plugin
(sleekxmpp/plugins/xep_0030/disco.py).

The plugin keeps, for every discovery operation name, a three-tier
handler table (global, per-JID, per-(JID, node)).  The embedding below
translates the registry (plugin_init, set_node_handler, del_node_handler,
restore_defaults, _run_node_handler), the default-injection step
(_fix_default_info), the local branches of get_info / get_items, the
inbound dispatch of disco#info / disco#items get queries, and add_item.

Python dictionaries whose values may be None are embedded as association
lists with values of type Option H: a key can be absent, present with a
stored None, or present with a stored handler.  Python exceptions are
embedded with Except PyErr; handlers themselves may signal an exception
through the same type.  Truthiness tests on stored handlers follow
Python: a stored None is falsy and is skipped, a stored function object
is truthy.
-/

/-- Python-level failures that the translated code can signal: a missing
dictionary key, subscripting None, a store-level invalid argument, and an
exception escaping from a user handler. -/
inductive PyErr where
  | keyError
  | typeError
  | invalidArgument
  | handlerError
deriving DecidableEq

/-- Association-list read, first binding wins, modelling a Python dict
lookup that returns none when the key is absent. -/
def dget {K V : Type} [DecidableEq K] : List (K × V) → K → Option V
  | [], _ => none
  | (k, v) :: rest, key => if key = k then some v else dget rest key

/-- Association-list write, modelling a Python dict item assignment:
replace the binding when the key is present, append it otherwise. -/
def dset {K V : Type} [DecidableEq K] : List (K × V) → K → V → List (K × V)
  | [], key, v => [(key, v)]
  | (k, w) :: rest, key, v =>
      if key = k then (k, v) :: rest else (k, w) :: dset rest key v

/-- One operation entry of self dot handlers: the global tier holds an
optional handler, the jid tier and the node tier are dicts whose stored
values may themselves be None (a cleared handler). -/
structure HandlerTable (H : Type) where
  globalH : Option H
  jidH : List (String × Option H)
  nodeH : List ((String × String) × Option H)
deriving DecidableEq

/-- The plugin state used by the registry code: the component-mode flag
and bound JID forms of the owning XMPP object, the per-operation default
handlers, and the per-operation three-tier tables. -/
structure DiscoPlugin (H : Type) where
  xmpp_is_component : Bool
  boundjid_full : String
  boundjid_bare : String
  default_handlers : List (String × H)
  handlers : List (String × HandlerTable H)
deriving DecidableEq

/-- The fixed list self dot underscore disco_ops built in plugin_init. -/
def disco_ops : List String :=
  ["get_info", "set_identities", "set_features",
   "get_items", "set_items", "del_items",
   "add_identity", "del_identity", "add_feature",
   "del_feature", "add_item", "del_item",
   "del_identities", "del_features"]

/-- plugin_init restricted to the registry state: every operation gets
the corresponding static handler as its default and as its initial
global-tier handler, with empty jid and node tiers (_add_disco_op). -/
def plugin_init {H : Type} (ic : Bool) (bf bb : String) (static : String → H) :
    DiscoPlugin H :=
  { xmpp_is_component := ic
    boundjid_full := bf
    boundjid_bare := bb
    default_handlers := disco_ops.map (fun op => (op, static op))
    handlers := disco_ops.map
      (fun op => (op, { globalH := some (static op), jidH := [], nodeH := [] })) }

/-- The JID substituted for a missing jid argument: boundjid.full in
component mode, boundjid.bare in client mode. -/
def selfJid {H : Type} (p : DiscoPlugin H) : String :=
  if p.xmpp_is_component then p.boundjid_full else p.boundjid_bare

/-- The four tier-selection branches of set_node_handler, in source
order: both absent targets the global tier, jid alone targets the jid
tier, node alone targets the node tier under the own bound JID, and both
given target the node tier for exactly that pair. -/
def applyTier {H : Type} (self : String) (jid node : Option String)
    (handler : Option H) (t : HandlerTable H) : HandlerTable H :=
  match jid, node with
  | none, none => { t with globalH := handler }
  | some j, none => { t with jidH := dset t.jidH j handler }
  | none, some n => { t with nodeH := dset t.nodeH (self, n) handler }
  | some j, some n => { t with nodeH := dset t.nodeH (j, n) handler }

/-- Rewrite the table stored for one operation name, leaving every other
entry of the handlers dict alone. -/
def set_in {H : Type} (p : DiscoPlugin H) (op : String)
    (f : HandlerTable H → HandlerTable H) : DiscoPlugin H :=
  { p with handlers :=
      p.handlers.map (fun kt => if kt.1 = op then (kt.1, f kt.2) else kt) }

/-- set_node_handler: an operation name outside disco_ops is silently
ignored (the source returns immediately); otherwise the tier selected by
the jid and node arguments is overwritten with the given handler, which
may be None. -/
def set_node_handler {H : Type} (p : DiscoPlugin H) (htype : String)
    (jid node : Option String) (handler : Option H) : DiscoPlugin H :=
  if htype ∈ disco_ops then set_in p htype (applyTier (selfJid p) jid node handler)
  else p

/-- del_node_handler is set_node_handler with handler None. -/
def del_node_handler {H : Type} (p : DiscoPlugin H) (htype : String)
    (jid node : Option String) : DiscoPlugin H :=
  set_node_handler p htype jid node none

/-- The loop body of restore_defaults: for each listed operation, clear
the tier and then re-install the default handler there; looking up a
name missing from default_handlers raises KeyError. -/
def restore_list {H : Type} :
    DiscoPlugin H → Option String → Option String → List String →
    Except PyErr (DiscoPlugin H)
  | p, _, _, [] => Except.ok p
  | p, jid, node, op :: rest =>
      match dget (del_node_handler p op jid node).default_handlers op with
      | none => Except.error PyErr.keyError
      | some d =>
          restore_list (set_node_handler (del_node_handler p op jid node) op jid node (some d))
            jid node rest

/-- restore_defaults: iterate del_node_handler followed by
set_node_handler with the initialization-time default over the given
operation list, or over all of disco_ops when none is given. -/
def restore_defaults {H : Type} (p : DiscoPlugin H) (jid node : Option String)
    (hs : Option (List String)) : Except PyErr (DiscoPlugin H) :=
  restore_list p jid node (hs.getD disco_ops)

/-- Normalization of the jid argument in _run_node_handler: None becomes
the own bound JID (full in component mode, bare otherwise). -/
def normJid {H : Type} (p : DiscoPlugin H) : Option String → String
  | none => selfJid p
  | some j => j

/-- Normalization of the node argument in _run_node_handler: None
becomes the empty string. -/
def normNode : Option String → String
  | none => ""
  | some n => n

/-- The tier walk of _run_node_handler: the node tier is consulted first
and used only when it stores a truthy handler, then the jid tier under
the same rule, then the global tier; a stored None at any tier is falsy
and skipped, exactly like an absent key. -/
def lookup_handler {H : Type} (t : HandlerTable H) (j n : String) : Option H :=
  match dget t.nodeH (j, n) with
  | some (some h) => some h
  | _ =>
    match dget t.jidH j with
    | some (some h) => some h
    | _ => t.globalH

/-- The table stored for one operation name in the handlers dict. -/
def tableOf {H : Type} (p : DiscoPlugin H) (op : String) : Option (HandlerTable H) :=
  dget p.handlers op

/-- The resolution part of _run_node_handler: normalize the jid and node
arguments, look the operation up in the handlers dict (KeyError when the
name is unknown), then walk the tiers; the result carries the selected
handler together with the normalized pair it would be invoked with, or
none when every tier is unset. -/
def run_node_handler_resolve {H : Type} (p : DiscoPlugin H) (htype : String)
    (jid node : Option String) : Except PyErr (Option (H × String × String)) :=
  match tableOf p htype with
  | none => Except.error PyErr.keyError
  | some t =>
      match lookup_handler t (normJid p jid) (normNode node) with
      | some h => Except.ok (some (h, normJid p jid, normNode node))
      | none => Except.ok none

/-- Modelled from the spec: the disco#info payload carried by the stanza
class, which is not under src.  It holds the queried node (empty string
meaning the entity root), the identity set as (category, type, language,
name) tuples, and the feature set of namespace strings; the stanza
accessors used by the source read and append to these collections. -/
structure DiscoInfo where
  node : String
  identities : List (String × String × Option String × Option String)
  features : List String
deriving DecidableEq

/-- Modelled from the spec: the disco#items payload carried by the
stanza class, which is not under src.  It holds the queried node and
the item list as (item JID, item node, name) tuples. -/
structure DiscoItems where
  node : String
  items : List (String × String × Option String)
deriving DecidableEq

/-- The namespace string that info dot namespace yields for a disco#info
payload. -/
def disco_info_ns : String := "http://jabber.org/protocol/disco#info"

/-- _fix_default_info: the argument is whatever _run_node_handler
produced, so it may be Python None, in which case the immediate
subscript of None raises TypeError.  On a real payload, when the node is
empty: an empty identity set receives exactly one generic identity,
component/generic in component mode and client/bot otherwise, and an
empty feature set receives exactly the disco#info namespace; a payload
with a non-empty node is returned untouched. -/
def fix_default_info (is_comp : Bool) (info : Option DiscoInfo) :
    Except PyErr DiscoInfo :=
  match info with
  | none => Except.error PyErr.typeError
  | some i =>
      Except.ok <|
        if i.node = "" then
          let i1 :=
            if i.identities = [] then
              if is_comp then
                { i with identities := i.identities ++ [("component", "generic", none, none)] }
              else
                { i with identities := i.identities ++ [("client", "bot", none, none)] }
            else i
          if i1.features = [] then { i1 with features := i1.features ++ [disco_info_ns] }
          else i1
        else i

/-- The shape of a dynamic get_info handler: it receives the normalized
JID and node plus the request context, and either returns a payload,
returns None, or raises. -/
def InfoHandler (D : Type) : Type :=
  String → String → D → Except PyErr (Option DiscoInfo)

/-- The shape of a dynamic get_items handler. -/
def ItemsHandler (D : Type) : Type :=
  String → String → D → Except PyErr (Option DiscoItems)

/-- _run_node_handler specialized to get_info: resolve, then invoke the
selected handler on the normalized pair; with no handler at any tier the
call returns None. -/
def run_node_handler_get_info {D : Type} (p : DiscoPlugin (InfoHandler D))
    (jid node : Option String) (data : D) : Except PyErr (Option DiscoInfo) :=
  match run_node_handler_resolve p "get_info" jid node with
  | Except.error e => Except.error e
  | Except.ok none => Except.ok none
  | Except.ok (some (h, j, n)) => h j n data

/-- _run_node_handler specialized to get_items. -/
def run_node_handler_get_items {D : Type} (p : DiscoPlugin (ItemsHandler D))
    (jid node : Option String) (data : D) : Except PyErr (Option DiscoItems) :=
  match run_node_handler_resolve p "get_items" jid node with
  | Except.error e => Except.error e
  | Except.ok none => Except.ok none
  | Except.ok (some (h, j, n)) => h j n data

/-- The local branch of get_info (taken when local is true or jid is
None): run the node handler and pass its raw result straight into
_fix_default_info, with no None guard in between. -/
def get_info_local {D : Type} (p : DiscoPlugin (InfoHandler D))
    (jid node : Option String) (data : D) : Except PyErr DiscoInfo :=
  match run_node_handler_get_info p jid node data with
  | Except.error e => Except.error e
  | Except.ok info => fix_default_info p.xmpp_is_component info

/-- The local branch of get_items: the raw handler result is returned
as is, None included. -/
def get_items_local {D : Type} (p : DiscoPlugin (ItemsHandler D))
    (jid node : Option String) (data : D) : Except PyErr (Option DiscoItems) :=
  run_node_handler_get_items p jid node data

/-- The get branch of _handle_disco_info.  The target JID is the full
form of the addressed JID in component mode and the bare form otherwise;
the queried node string comes from the stanza.  The returned value is
the payload of the reply that gets sent: none for the empty reply
produced when the handler chain yielded None, and the default-injected
payload when a truthy payload object came back (a stanza object is
truthy even when its sets are empty).  An error means the exception
escaped before iq.send, so no reply was sent by this code. -/
def handle_disco_info_get {D : Type} (p : DiscoPlugin (InfoHandler D))
    (toFull toBare qnode : String) (data : D) : Except PyErr (Option DiscoInfo) :=
  match run_node_handler_get_info p
      (some (if p.xmpp_is_component then toFull else toBare)) (some qnode) data with
  | Except.error e => Except.error e
  | Except.ok none => Except.ok none
  | Except.ok (some i) =>
      match fix_default_info p.xmpp_is_component (some i) with
      | Except.error e => Except.error e
      | Except.ok fixed => Except.ok (some fixed)

/-- The get branch of _handle_disco_items, same conventions as the info
variant but with no default-injection step. -/
def handle_disco_items_get {D : Type} (p : DiscoPlugin (ItemsHandler D))
    (toFull toBare qnode : String) (data : D) : Except PyErr (Option DiscoItems) :=
  match run_node_handler_get_items p
      (some (if p.xmpp_is_component then toFull else toBare)) (some qnode) data with
  | Except.error e => Except.error e
  | Except.ok items => Except.ok items

/-- The keyword dict that add_item builds for its handler: the item JID,
the item name, and the item node. -/
structure AddItemKwargs where
  ijid : String
  name : String
  inode : String
deriving DecidableEq

/-- Modelled from the spec: one scope record of the static in-memory
store (the StaticDisco backend is not under src), holding the identity
set, the feature set, and the item list of that scope. -/
structure StoreNode where
  identities : List (String × String × Option String × Option String)
  features : List String
  items : List (String × String × String)
deriving DecidableEq

/-- Modelled from the spec: the static store, one record per scope. -/
structure Store where
  nodes : List ((String × String) × StoreNode)
deriving DecidableEq

/-- Insert-or-replace an item keyed by its (address, node) pair,
keeping insertion order for other entries. -/
def upsertItem : List (String × String × String) → String → String → String →
    List (String × String × String)
  | [], a, n, nm => [(a, n, nm)]
  | (a0, n0, nm0) :: rest, a, n, nm =>
      if a0 = a ∧ n0 = n then (a, n, nm) :: rest
      else (a0, n0, nm0) :: upsertItem rest a n nm

/-- The shape of a dynamic add_item handler: it receives the normalized
scope pair and the keyword data, and transforms the store. -/
def AddItemHandler : Type :=
  String → String → AddItemKwargs → Store → Except PyErr Store

/-- Modelled from the spec: the static store operation backing add_item,
an insert-or-replace keyed by (item address, item node) within the
addressed scope, creating the scope record on first write and failing
with InvalidArgument when the item address is empty. -/
def store_add_item : AddItemHandler := fun jid node kw st =>
  if kw.ijid = "" then Except.error PyErr.invalidArgument
  else
    let r := (dget st.nodes (jid, node)).getD
      { identities := [], features := [], items := [] }
    Except.ok
      { nodes := dset st.nodes (jid, node)
          { r with items := upsertItem r.items kw.ijid kw.inode kw.name } }

/-- add_item as written in the source: an empty item JID is replaced by
the own full bound JID before the keyword dict is built, then the
add_item handler resolved for the (ijid, node) scope runs on the store;
with no handler at any tier the call is a no-op. -/
def add_item (p : DiscoPlugin AddItemHandler) (st : Store) (jid name : String)
    (node : Option String) (subnode : String) (ijid : Option String) :
    Except PyErr Store :=
  let jid2 := if jid = "" then p.boundjid_full else jid
  match run_node_handler_resolve p "add_item" ijid node with
  | Except.error e => Except.error e
  | Except.ok none => Except.ok st
  | Except.ok (some (h, j, n)) =>
      h j n { ijid := jid2, name := name, inode := subnode } st

/-- Read back the name stored for an item key inside a scope record of
the store. -/
def itemName : List (String × String × String) → String × String → Option String
  | [], _ => none
  | (a, n, nm) :: rest, key => if key = (a, n) then some nm else itemName rest key

/-- Read back the name stored for an item key of a scope. -/
def getItemName (st : Store) (scope : String × String) (key : String × String) :
    Option String :=
  match dget st.nodes scope with
  | none => none
  | some r => itemName r.items key

/-- A client-mode plugin over Nat handler tags, with G registered at the
global tier, A at the jid tier for x@h, and S at the node tier for
(x@h, n), all for get_info. -/
def c1_plugin : DiscoPlugin Nat :=
  set_node_handler
    (set_node_handler
      (set_node_handler (plugin_init false "me@h/r" "me@h" (fun _ => 0))
        "get_info" none none (some 1))
      "get_info" (some "x@h") none (some 2))
    "get_info" (some "x@h") (some "n") (some 3)

/-- A client-mode plugin over Nat handler tags with G global and A at
the jid tier for x@h, before restore_defaults runs. -/
def c3_plugin : DiscoPlugin Nat :=
  set_node_handler
    (set_node_handler (plugin_init false "me@h/r" "me@h" (fun _ => 0))
      "get_info" none none (some 1))
    "get_info" (some "x@h") none (some 2)

/-- A client-mode plugin whose static get_info handler returns None and
whose global get_info tier has then been cleared, leaving no handler at
any tier for that operation. -/
def c4_info_plugin : DiscoPlugin (InfoHandler Unit) :=
  del_node_handler
    (plugin_init false "me@h/r" "me@h" (fun _ => fun _ _ _ => Except.ok none))
    "get_info" none none

/-- Same construction for get_items. -/
def c4_items_plugin : DiscoPlugin (ItemsHandler Unit) :=
  del_node_handler
    (plugin_init false "me@h/r" "me@h" (fun _ => fun _ _ _ => Except.ok none))
    "get_items" none none

/-- A fresh client-mode plugin over Nat handler tags. -/
def c5_plugin : DiscoPlugin Nat :=
  plugin_init false "me@h/r" "me@h" (fun _ => 0)

/-- A client-mode plugin whose every static handler is the store-backed
add_item operation. -/
def c6_plugin : DiscoPlugin AddItemHandler :=
  plugin_init false "me@h/r" "me@h" (fun _ => store_add_item)

/-- A client-mode plugin whose global get_info handler raises. -/
def c7_raising_plugin : DiscoPlugin (InfoHandler Unit) :=
  set_node_handler
    (plugin_init false "me@h/r" "me@h" (fun _ => fun _ _ _ => Except.ok none))
    "get_info" none none (some (fun _ _ _ => Except.error PyErr.handlerError))

/-- A client-mode plugin whose get_info handlers all return None. -/
def c7_info_plugin : DiscoPlugin (InfoHandler Unit) :=
  plugin_init false "me@h/r" "me@h" (fun _ => fun _ _ _ => Except.ok none)

/-- A client-mode plugin whose get_items handlers all return None. -/
def c7_items_plugin : DiscoPlugin (ItemsHandler Unit) :=
  plugin_init false "me@h/r" "me@h" (fun _ => fun _ _ _ => Except.ok none)

/-- A client-mode plugin over Nat handler tags for the global-tier
restore_defaults witness. -/
def c8_plugin : DiscoPlugin Nat :=
  plugin_init false "me@h/r" "me@h" (fun _ => 0)

/-- A client-mode plugin over Nat handler tags for the normalization
witness. -/
def c9_plugin : DiscoPlugin Nat :=
  plugin_init false "me@h/r" "me@h" (fun _ => 0)

/-- An info plugin for the normalization witness. -/
def c9_info_plugin : DiscoPlugin (InfoHandler Unit) :=
  plugin_init false "me@h/r" "me@h" (fun _ => fun _ _ _ => Except.ok none)

/-- A client-mode plugin whose global get_info handler returns a payload
object whose node, identity set and feature set are all empty. -/
def c10_plugin : DiscoPlugin (InfoHandler Unit) :=
  set_node_handler
    (plugin_init false "me@h/r" "me@h" (fun _ => fun _ _ _ => Except.ok none))
    "get_info" none none
    (some (fun _ _ _ =>
      Except.ok (some { node := "", identities := [], features := [] })))

/-- The empty info payload used as the concrete handler result in the
payload-injection analysis. -/
def emptyInfo : DiscoInfo := { node := "", identities := [], features := [] }

theorem dget_dset_self {K V : Type} [DecidableEq K] (d : List (K × V)) (k : K) (v : V) :
    dget (dset d k v) k = some v := by
  induction d with
  | nil => simp [dget, dset]
  | cons kv rest ih =>
      obtain ⟨k0, v0⟩ := kv
      by_cases h : k = k0
      · simp [dget, dset, h]
      · simp [dget, dset, h, ih]

theorem dget_dset_ne {K V : Type} [DecidableEq K] (d : List (K × V)) (k q : K) (v : V)
    (h : q ≠ k) : dget (dset d k v) q = dget d q := by
  induction d with
  | nil => simp [dget, dset, h]
  | cons kv rest ih =>
      obtain ⟨k0, v0⟩ := kv
      by_cases h0 : k = k0
      · subst h0
        simp [dget, dset, h]
      · by_cases h1 : q = k0 <;> simp [dget, dset, h0, h1, ih]

theorem dset_dset_self {K V : Type} [DecidableEq K] (d : List (K × V)) (k : K) (v w : V) :
    dset (dset d k v) k w = dset d k w := by
  induction d with
  | nil => simp [dset]
  | cons kv rest ih =>
      obtain ⟨k0, v0⟩ := kv
      by_cases h : k = k0 <;> simp [dset, h, ih]

theorem dget_map_pair {V : Type} (l : List String) (g : String → V) (o : String) :
    dget (l.map (fun x => (x, g x))) o = if o ∈ l then some (g o) else none := by
  induction l with
  | nil => simp [dget]
  | cons a t ih =>
      by_cases h : o = a
      · simp [dget, h]
      · simp [dget, h, ih]

theorem dget_map_upd {V : Type} (l : List (String × V)) (op : String) (f : V → V) :
    dget (l.map (fun kt => if kt.1 = op then (kt.1, f kt.2) else kt)) op =
      (dget l op).map f := by
  induction l with
  | nil => rfl
  | cons kv t ih =>
      obtain ⟨k, v⟩ := kv
      show dget ((if k = op then (k, f v) else (k, v)) ::
          t.map (fun kt => if kt.1 = op then (kt.1, f kt.2) else kt)) op =
        (dget ((k, v) :: t) op).map f
      by_cases h : k = op
      · rw [if_pos h, dget, dget, if_pos h.symm, if_pos h.symm, Option.map_some']
      · have h2 : op ≠ k := fun hh => h hh.symm
        rw [if_neg h, dget, dget, if_neg h2, if_neg h2, ih]

theorem dget_map_upd_ne {V : Type} (l : List (String × V)) (op o : String) (f : V → V)
    (h : o ≠ op) :
    dget (l.map (fun kt => if kt.1 = op then (kt.1, f kt.2) else kt)) o = dget l o := by
  induction l with
  | nil => rfl
  | cons kv t ih =>
      obtain ⟨k, v⟩ := kv
      show dget ((if k = op then (k, f v) else (k, v)) ::
          t.map (fun kt => if kt.1 = op then (kt.1, f kt.2) else kt)) o =
        dget ((k, v) :: t) o
      by_cases hk : k = op
      · have ho : o ≠ k := fun hh => h (hh.trans hk)
        rw [if_pos hk, dget, dget, if_neg ho, if_neg ho, ih]
      · by_cases ho : o = k
        · rw [if_neg hk, dget, dget, if_pos ho, if_pos ho]
        · rw [if_neg hk, dget, dget, if_neg ho, if_neg ho, ih]

theorem set_node_handler_is_component {H : Type} (p : DiscoPlugin H) (op : String)
    (jid node : Option String) (h : Option H) :
    (set_node_handler p op jid node h).xmpp_is_component = p.xmpp_is_component := by
  unfold set_node_handler set_in
  split <;> rfl

theorem set_node_handler_full {H : Type} (p : DiscoPlugin H) (op : String)
    (jid node : Option String) (h : Option H) :
    (set_node_handler p op jid node h).boundjid_full = p.boundjid_full := by
  unfold set_node_handler set_in
  split <;> rfl

theorem set_node_handler_bare {H : Type} (p : DiscoPlugin H) (op : String)
    (jid node : Option String) (h : Option H) :
    (set_node_handler p op jid node h).boundjid_bare = p.boundjid_bare := by
  unfold set_node_handler set_in
  split <;> rfl

theorem set_node_handler_defaults {H : Type} (p : DiscoPlugin H) (op : String)
    (jid node : Option String) (h : Option H) :
    (set_node_handler p op jid node h).default_handlers = p.default_handlers := by
  unfold set_node_handler set_in
  split <;> rfl

theorem selfJid_set_node_handler {H : Type} (p : DiscoPlugin H) (op : String)
    (jid node : Option String) (h : Option H) :
    selfJid (set_node_handler p op jid node h) = selfJid p := by
  unfold selfJid
  rw [set_node_handler_is_component, set_node_handler_full, set_node_handler_bare]

theorem tableOf_set_node_handler_self {H : Type} (p : DiscoPlugin H) (op : String)
    (jid node : Option String) (h : Option H) (hop : op ∈ disco_ops) :
    tableOf (set_node_handler p op jid node h) op =
      (tableOf p op).map (applyTier (selfJid p) jid node h) := by
  unfold set_node_handler
  rw [if_pos hop]
  unfold tableOf set_in
  exact dget_map_upd p.handlers op (applyTier (selfJid p) jid node h)

theorem tableOf_set_node_handler_ne {H : Type} (p : DiscoPlugin H) (op o : String)
    (jid node : Option String) (h : Option H) (hne : o ≠ op) :
    tableOf (set_node_handler p op jid node h) o = tableOf p o := by
  unfold set_node_handler
  split
  · unfold tableOf set_in
    exact dget_map_upd_ne p.handlers op o (applyTier (selfJid p) jid node h) hne
  · rfl

theorem set_node_handler_not_mem {H : Type} (p : DiscoPlugin H) (op : String)
    (jid node : Option String) (h : Option H) (hop : op ∉ disco_ops) :
    set_node_handler p op jid node h = p := by
  unfold set_node_handler
  rw [if_neg hop]

theorem tableOf_plugin_init {H : Type} (ic : Bool) (bf bb : String)
    (static : String → H) (op : String) :
    tableOf (plugin_init ic bf bb static) op =
      if op ∈ disco_ops
      then some { globalH := some (static op), jidH := [], nodeH := [] }
      else none := by
  unfold tableOf plugin_init
  exact dget_map_pair disco_ops
    (fun o => ({ globalH := some (static o), jidH := [], nodeH := [] } : HandlerTable H)) op

theorem defaults_plugin_init {H : Type} (ic : Bool) (bf bb : String)
    (static : String → H) (op : String) :
    dget (plugin_init ic bf bb static).default_handlers op =
      if op ∈ disco_ops then some (static op) else none := by
  unfold plugin_init
  exact dget_map_pair disco_ops static op

theorem applyTier_applyTier {H : Type} (self : String) (jid node : Option String)
    (h1 h2 : Option H) (t : HandlerTable H) :
    applyTier self jid node h2 (applyTier self jid node h1 t) =
      applyTier self jid node h2 t := by
  cases jid <;> cases node <;> simp [applyTier, dset_dset_self]

theorem del_node_handler_defaults {H : Type} (p : DiscoPlugin H) (op : String)
    (jid node : Option String) :
    (del_node_handler p op jid node).default_handlers = p.default_handlers :=
  set_node_handler_defaults p op jid node none

theorem restore_list_spec {H : Type} (ops : List String) (jid node : Option String)
    (p : DiscoPlugin H) (hnd : ops.Nodup)
    (hdef : ∀ o ∈ ops, (dget p.default_handlers o).isSome) :
    ∃ q, restore_list p jid node ops = Except.ok q ∧
      q.xmpp_is_component = p.xmpp_is_component ∧
      q.boundjid_full = p.boundjid_full ∧
      q.boundjid_bare = p.boundjid_bare ∧
      q.default_handlers = p.default_handlers ∧
      ∀ o, tableOf q o =
        if o ∈ ops ∧ o ∈ disco_ops
        then (tableOf p o).map
          (applyTier (selfJid p) jid node (dget p.default_handlers o))
        else tableOf p o := by
  induction ops generalizing p with
  | nil =>
      refine ⟨p, rfl, rfl, rfl, rfl, rfl, fun o => ?_⟩
      simp
  | cons op rest ih =>
      obtain ⟨hop_rest, hrest_nd⟩ := List.nodup_cons.mp hnd
      obtain ⟨d, hd⟩ :=
        Option.isSome_iff_exists.mp (hdef op (List.mem_cons_self op rest))
      have hdefs1 := del_node_handler_defaults p op jid node
      have hstep : restore_list p jid node (op :: rest) =
          restore_list
            (set_node_handler (del_node_handler p op jid node) op jid node (some d))
            jid node rest := by
        rw [restore_list, hdefs1, hd]
      have hdefs2 :
          (set_node_handler (del_node_handler p op jid node) op jid node
            (some d)).default_handlers = p.default_handlers := by
        rw [set_node_handler_defaults, hdefs1]
      have hic2 :
          (set_node_handler (del_node_handler p op jid node) op jid node
            (some d)).xmpp_is_component = p.xmpp_is_component := by
        rw [set_node_handler_is_component]
        exact set_node_handler_is_component p op jid node none
      have hbf2 :
          (set_node_handler (del_node_handler p op jid node) op jid node
            (some d)).boundjid_full = p.boundjid_full := by
        rw [set_node_handler_full]
        exact set_node_handler_full p op jid node none
      have hbb2 :
          (set_node_handler (del_node_handler p op jid node) op jid node
            (some d)).boundjid_bare = p.boundjid_bare := by
        rw [set_node_handler_bare]
        exact set_node_handler_bare p op jid node none
      have hself1 : selfJid (del_node_handler p op jid node) = selfJid p :=
        selfJid_set_node_handler p op jid node none
      have hself2 :
          selfJid (set_node_handler (del_node_handler p op jid node) op jid node
            (some d)) = selfJid p := by
        rw [selfJid_set_node_handler, hself1]
      have hdef2 : ∀ o ∈ rest,
          (dget (set_node_handler (del_node_handler p op jid node) op jid node
            (some d)).default_handlers o).isSome := by
        intro o ho
        rw [hdefs2]
        exact hdef o (List.mem_cons_of_mem op ho)
      obtain ⟨q, hrun, hc, hf, hb, hdq, ht⟩ :=
        ih (set_node_handler (del_node_handler p op jid node) op jid node (some d))
          hrest_nd hdef2
      refine ⟨q, by rw [hstep, hrun], hc.trans hic2, hf.trans hbf2, hb.trans hbb2,
        hdq.trans hdefs2, fun o => ?_⟩
      rw [ht o, hself2, hdefs2]
      by_cases ho : o = op
      · subst ho
        rw [if_neg (by simp [hop_rest])]
        by_cases hdo : o ∈ disco_ops
        · rw [if_pos ⟨List.mem_cons_self o rest, hdo⟩]
          rw [tableOf_set_node_handler_self _ _ _ _ _ hdo, hself1]
          rw [show del_node_handler p o jid node = set_node_handler p o jid node none
            from rfl]
          rw [tableOf_set_node_handler_self _ _ _ _ _ hdo]
          rw [Option.map_map, hd]
          congr 1
          funext t
          exact applyTier_applyTier (selfJid p) jid node none (some d) t
        · rw [if_neg (by simp [hdo])]
          rw [show del_node_handler p o jid node = set_node_handler p o jid node none
            from rfl]
          rw [set_node_handler_not_mem _ _ _ _ _ hdo,
            set_node_handler_not_mem _ _ _ _ _ hdo]
      · have htp : tableOf
            (set_node_handler (del_node_handler p op jid node) op jid node (some d)) o =
            tableOf p o := by
          rw [tableOf_set_node_handler_ne _ _ _ _ _ _ ho]
          rw [show del_node_handler p op jid node = set_node_handler p op jid node none
            from rfl]
          exact tableOf_set_node_handler_ne _ _ _ _ _ _ ho
        rw [htp]
        by_cases hr : o ∈ rest
        · by_cases hdo : o ∈ disco_ops
          · rw [if_pos ⟨hr, hdo⟩, if_pos ⟨List.mem_cons_of_mem op hr, hdo⟩]
          · rw [if_neg (by simp [hdo]), if_neg (by simp [hdo])]
        · rw [if_neg (by simp [hr])]
          rw [if_neg (by
            intro hcon
            rcases hcon with ⟨hmem, _⟩
            rcases List.mem_cons.mp hmem with h1 | h1
            · exact ho h1
            · exact hr h1)]

/-- Claim C1: for every supported operation and every scope, resolution
returns the most specific registered handler: the node-tier handler for
exactly (address, node) when present, else the jid-tier handler for the
address, else the global handler; a tier whose handler has been cleared
with del_node_handler is skipped in favour of the next coarser tier, and
resolution yields none exactly when the global tier is also unset. -/
theorem c1_handler_precedence {H : Type} (ic : Bool) (bf bb : String)
    (static : String → H) (op X Y n m : String) (G A S : H) (p3 : DiscoPlugin H)
    (hop : op ∈ disco_ops) (hY : Y ≠ X) (hm : m ≠ n)
    (hp3 : p3 = set_node_handler (set_node_handler (set_node_handler
      (plugin_init ic bf bb static) op none none (some G))
      op (some X) none (some A)) op (some X) (some n) (some S)) :
    run_node_handler_resolve p3 op (some X) (some n) = Except.ok (some (S, X, n)) ∧
    run_node_handler_resolve p3 op (some X) (some m) = Except.ok (some (A, X, m)) ∧
    run_node_handler_resolve p3 op (some Y) (some n) = Except.ok (some (G, Y, n)) ∧
    run_node_handler_resolve (del_node_handler p3 op (some X) (some n))
      op (some X) (some n) = Except.ok (some (A, X, n)) ∧
    run_node_handler_resolve (del_node_handler (del_node_handler p3 op (some X) (some n))
      op (some X) none) op (some X) (some n) = Except.ok (some (G, X, n)) ∧
    run_node_handler_resolve (del_node_handler (del_node_handler
      (del_node_handler p3 op (some X) (some n)) op (some X) none) op none none)
      op (some X) (some n) = Except.ok none := by
  have ht0 : tableOf (plugin_init ic bf bb static) op =
      some { globalH := some (static op), jidH := [], nodeH := [] } := by
    rw [tableOf_plugin_init, if_pos hop]
  have ht1 : tableOf (set_node_handler (plugin_init ic bf bb static)
      op none none (some G)) op =
      some { globalH := some G, jidH := [], nodeH := [] } := by
    rw [tableOf_set_node_handler_self _ _ _ _ _ hop, ht0]
    rfl
  have ht2 : tableOf (set_node_handler (set_node_handler (plugin_init ic bf bb static)
      op none none (some G)) op (some X) none (some A)) op =
      some { globalH := some G, jidH := [(X, some A)], nodeH := [] } := by
    rw [tableOf_set_node_handler_self _ _ _ _ _ hop, ht1]
    rfl
  have ht3 : tableOf p3 op =
      some { globalH := some G, jidH := [(X, some A)], nodeH := [((X, n), some S)] } := by
    rw [hp3, tableOf_set_node_handler_self _ _ _ _ _ hop, ht2]
    rfl
  have ht4 : tableOf (del_node_handler p3 op (some X) (some n)) op =
      some { globalH := some G, jidH := [(X, some A)], nodeH := [((X, n), none)] } := by
    rw [show del_node_handler p3 op (some X) (some n) =
        set_node_handler p3 op (some X) (some n) none from rfl,
      tableOf_set_node_handler_self _ _ _ _ _ hop, ht3]
    simp [applyTier, dset]
  have ht5 : tableOf (del_node_handler (del_node_handler p3 op (some X) (some n))
      op (some X) none) op =
      some { globalH := some G, jidH := [(X, none)], nodeH := [((X, n), none)] } := by
    rw [show del_node_handler (del_node_handler p3 op (some X) (some n)) op (some X) none =
        set_node_handler (del_node_handler p3 op (some X) (some n)) op (some X) none none
        from rfl,
      tableOf_set_node_handler_self _ _ _ _ _ hop, ht4]
    simp [applyTier, dset]
  have ht6 : tableOf (del_node_handler (del_node_handler
      (del_node_handler p3 op (some X) (some n)) op (some X) none) op none none) op =
      some { globalH := none, jidH := [(X, none)], nodeH := [((X, n), none)] } := by
    rw [show del_node_handler (del_node_handler (del_node_handler p3 op (some X) (some n))
        op (some X) none) op none none =
        set_node_handler (del_node_handler (del_node_handler p3 op (some X) (some n))
          op (some X) none) op none none none from rfl,
      tableOf_set_node_handler_self _ _ _ _ _ hop, ht5]
    rfl
  refine ⟨?_, ?_, ?_, ?_, ?_, ?_⟩
  · simp [run_node_handler_resolve, ht3, lookup_handler, dget, normJid, normNode]
  · simp [run_node_handler_resolve, ht3, lookup_handler, dget, normJid, normNode, hm]
  · simp [run_node_handler_resolve, ht3, lookup_handler, dget, normJid, normNode, hY]
  · simp [run_node_handler_resolve, ht4, lookup_handler, dget, normJid, normNode]
  · simp [run_node_handler_resolve, ht5, lookup_handler, dget, normJid, normNode]
  · simp [run_node_handler_resolve, ht6, lookup_handler, dget, normJid, normNode]

/-- Closed instance of the precedence claim at a concrete registry. -/
theorem c1_handler_precedence_witness :
    run_node_handler_resolve c1_plugin "get_info" (some "x@h") (some "n") =
      Except.ok (some (3, "x@h", "n")) :=
  (c1_handler_precedence false "me@h/r" "me@h" (fun _ => 0) "get_info" "x@h" "y@h"
    "n" "m" 1 2 3 c1_plugin (by decide) (by decide) (by decide) rfl).1

/-- Claim C3: with a global handler G and a jid-tier handler A for X
registered for an operation, restore_defaults for the scope (X, n)
installs the initialization-time default handler at the node tier for
(X, n), so resolving that scope returns the default (which wins over A
by precedence), while any other node under X still resolves to A. -/
theorem c3_restore_defaults_scope {H : Type} (ic : Bool) (bf bb : String)
    (static : String → H) (op X n m : String) (G A : H) (p2 : DiscoPlugin H)
    (hop : op ∈ disco_ops) (hm : m ≠ n)
    (hp2 : p2 = set_node_handler (set_node_handler (plugin_init ic bf bb static)
      op none none (some G)) op (some X) none (some A)) :
    ∃ q, restore_defaults p2 (some X) (some n) none = Except.ok q ∧
      run_node_handler_resolve q op (some X) (some n) =
        Except.ok (some (static op, X, n)) ∧
      run_node_handler_resolve q op (some X) (some m) =
        Except.ok (some (A, X, m)) := by
  have hdefs : p2.default_handlers =
      (plugin_init ic bf bb static).default_handlers := by
    rw [hp2, set_node_handler_defaults, set_node_handler_defaults]
  have hdef : ∀ o ∈ disco_ops, (dget p2.default_handlers o).isSome := by
    intro o ho
    rw [hdefs, defaults_plugin_init, if_pos ho]
    rfl
  obtain ⟨q, hrun, _, _, _, _, ht⟩ :=
    restore_list_spec disco_ops (some X) (some n) p2 (by decide) hdef
  have hdop : dget p2.default_handlers op = some (static op) := by
    rw [hdefs, defaults_plugin_init, if_pos hop]
  have ht0 : tableOf (plugin_init ic bf bb static) op =
      some { globalH := some (static op), jidH := [], nodeH := [] } := by
    rw [tableOf_plugin_init, if_pos hop]
  have ht1 : tableOf (set_node_handler (plugin_init ic bf bb static)
      op none none (some G)) op =
      some { globalH := some G, jidH := [], nodeH := [] } := by
    rw [tableOf_set_node_handler_self _ _ _ _ _ hop, ht0]
    rfl
  have ht2 : tableOf p2 op =
      some { globalH := some G, jidH := [(X, some A)], nodeH := [] } := by
    rw [hp2, tableOf_set_node_handler_self _ _ _ _ _ hop, ht1]
    rfl
  have htq : tableOf q op =
      some { globalH := some G, jidH := [(X, some A)],
             nodeH := [((X, n), some (static op))] } := by
    rw [ht op, if_pos ⟨hop, hop⟩, hdop, ht2]
    rfl
  refine ⟨q, hrun, ?_, ?_⟩
  · simp [run_node_handler_resolve, htq, lookup_handler, dget, normJid, normNode]
  · simp [run_node_handler_resolve, htq, lookup_handler, dget, normJid, normNode, hm]

/-- Closed instance of the scoped restore_defaults claim at a concrete
registry. -/
theorem c3_restore_defaults_scope_witness :
    ∃ q, restore_defaults c3_plugin (some "x@h") (some "n") none = Except.ok q ∧
      run_node_handler_resolve q "get_info" (some "x@h") (some "n") =
        Except.ok (some (0, "x@h", "n")) ∧
      run_node_handler_resolve q "get_info" (some "x@h") (some "m") =
        Except.ok (some (2, "x@h", "m")) :=
  c3_restore_defaults_scope false "me@h/r" "me@h" (fun _ => 0) "get_info" "x@h"
    "n" "m" 1 2 c3_plugin (by decide) (by decide) rfl

/-- Claim C8: restore_defaults with both the jid and node arguments
absent rewrites the global tier of every listed operation to the
initialization-time default handler and leaves the jid-tier and
node-tier maps untouched; no node-tier entry is installed, and tables of
names outside the operation set are unchanged. -/
theorem c8_restore_defaults_global {H : Type} (p : DiscoPlugin H)
    (hdef : ∀ o ∈ disco_ops, (dget p.default_handlers o).isSome) :
    ∃ q, restore_defaults p none none none = Except.ok q ∧
      q.default_handlers = p.default_handlers ∧
      (∀ o ∈ disco_ops, tableOf q o =
        (tableOf p o).map
          (fun t => { t with globalH := dget p.default_handlers o })) ∧
      (∀ o, o ∉ disco_ops → tableOf q o = tableOf p o) := by
  obtain ⟨q, hrun, _, _, _, hdq, ht⟩ :=
    restore_list_spec disco_ops none none p (by decide) hdef
  refine ⟨q, hrun, hdq, ?_, ?_⟩
  · intro o ho
    rw [ht o, if_pos ⟨ho, ho⟩]
    rfl
  · intro o ho
    rw [ht o, if_neg (by simp [ho])]

/-- Closed instance of the global restore_defaults claim at a concrete
registry. -/
theorem c8_restore_defaults_global_witness :
    (∀ o ∈ disco_ops, (dget c8_plugin.default_handlers o).isSome) ∧
    (∃ q, restore_defaults c8_plugin none none none = Except.ok q ∧
      q.default_handlers = c8_plugin.default_handlers ∧
      (∀ o ∈ disco_ops, tableOf q o =
        (tableOf c8_plugin o).map
          (fun t => { t with globalH := dget c8_plugin.default_handlers o })) ∧
      (∀ o, o ∉ disco_ops → tableOf q o = tableOf c8_plugin o)) :=
  ⟨by decide, c8_restore_defaults_global c8_plugin (by decide)⟩

theorem itemName_upsert (l : List (String × String × String)) (a n nm : String) :
    itemName (upsertItem l a n nm) (a, n) = some nm := by
  induction l with
  | nil => simp [upsertItem, itemName]
  | cons e t ih =>
      obtain ⟨a0, n0, nm0⟩ := e
      by_cases h : a0 = a ∧ n0 = n
      · simp [upsertItem, itemName, h]
      · have hne : (a, n) ≠ (a0, n0) := fun hc =>
          h ⟨(congrArg Prod.fst hc).symm, (congrArg Prod.snd hc).symm⟩
        simp [upsertItem, itemName, h, hne, ih]

theorem store_add_item_spec (j n : String) (kw : AddItemKwargs) (st : Store)
    (hb : kw.ijid ≠ "") :
    ∃ q, store_add_item j n kw st = Except.ok q ∧
      getItemName q (j, n) (kw.ijid, kw.inode) = some kw.name := by
  unfold store_add_item
  rw [if_neg hb]
  refine ⟨_, rfl, ?_⟩
  simp only [getItemName]
  rw [dget_dset_self]
  exact itemName_upsert _ kw.ijid kw.inode kw.name

/-- Claim C9: dispatching with the node argument absent is the same as
dispatching with the empty-string node, and dispatching with the jid
argument absent is the same as dispatching with the own bound JID, full
in component mode and bare in client mode; the resolution result,
including the pair the handler is invoked with, coincides, and therefore
so does the invoked get_info result. -/
theorem c9_dispatch_normalization {H D : Type} (p : DiscoPlugin H)
    (pI : DiscoPlugin (InfoHandler D)) (op a : String) (nd : Option String) (d : D) :
    run_node_handler_resolve p op (some a) none =
      run_node_handler_resolve p op (some a) (some "") ∧
    run_node_handler_resolve p op none nd =
      run_node_handler_resolve p op
        (some (if p.xmpp_is_component then p.boundjid_full else p.boundjid_bare)) nd ∧
    run_node_handler_get_info pI (some a) none d =
      run_node_handler_get_info pI (some a) (some "") d ∧
    run_node_handler_get_info pI none nd d =
      run_node_handler_get_info pI
        (some (if pI.xmpp_is_component then pI.boundjid_full else pI.boundjid_bare))
        nd d :=
  ⟨rfl, rfl, rfl, rfl⟩

/-- Closed instance of the normalization claim at a concrete registry. -/
theorem c9_dispatch_normalization_witness :
    run_node_handler_resolve c9_plugin "get_info" (some "x@h") none =
      run_node_handler_resolve c9_plugin "get_info" (some "x@h") (some "") ∧
    run_node_handler_resolve c9_plugin "get_info" none (some "n") =
      run_node_handler_resolve c9_plugin "get_info"
        (some (if c9_plugin.xmpp_is_component then c9_plugin.boundjid_full
          else c9_plugin.boundjid_bare)) (some "n") ∧
    run_node_handler_get_info c9_info_plugin (some "x@h") none () =
      run_node_handler_get_info c9_info_plugin (some "x@h") (some "") () ∧
    run_node_handler_get_info c9_info_plugin none (some "n") () =
      run_node_handler_get_info c9_info_plugin
        (some (if c9_info_plugin.xmpp_is_component then c9_info_plugin.boundjid_full
          else c9_info_plugin.boundjid_bare)) (some "n") () :=
  c9_dispatch_normalization c9_plugin c9_info_plugin "get_info" "x@h" (some "n") ()

/-- Registration with an operation name outside disco_ops leaves the
registry untouched and raises nothing, refuting the claimed
UnsupportedOperation failure at a concrete input. -/
theorem c5_counterexample :
    set_node_handler c5_plugin "frobnicate" (some "x@h") none (some 7) = c5_plugin :=
  set_node_handler_not_mem c5_plugin "frobnicate" (some "x@h") none (some 7)
    (by decide)

/-- Claim C5 as amended: an unknown operation name makes registration a
silent no-op with no state change and no error, while dispatch fails
fast with the dictionary KeyError raised by the handlers lookup before
any handler runs. -/
theorem c5_unknown_operation {H : Type} (p : DiscoPlugin H) (op : String)
    (jid node : Option String) (h : Option H) (ic : Bool) (bf bb : String)
    (static : String → H) (jid2 node2 : Option String)
    (hop : op ∉ disco_ops) :
    set_node_handler p op jid node h = p ∧
    run_node_handler_resolve (plugin_init ic bf bb static) op jid2 node2 =
      Except.error PyErr.keyError := by
  refine ⟨set_node_handler_not_mem p op jid node h hop, ?_⟩
  unfold run_node_handler_resolve
  rw [tableOf_plugin_init, if_neg hop]

/-- Closed instance of the unknown-operation behaviour at a concrete
registry. -/
theorem c5_unknown_operation_witness :
    ("frobnicate" ∉ disco_ops) ∧
    (set_node_handler c5_plugin "frobnicate" (some "x@h") none (some 7) = c5_plugin ∧
     run_node_handler_resolve (plugin_init false "me@h/r" "me@h" (fun _ => (0 : Nat)))
       "frobnicate" none none = Except.error PyErr.keyError) :=
  ⟨by decide, c5_unknown_operation c5_plugin "frobnicate" (some "x@h") none (some 7)
    false "me@h/r" "me@h" (fun _ => 0) none none (by decide)⟩

/-- Claim C4, evaluated at the failing input: with every tier of
get_info unset, the outbound local info query does not return an empty
result, it raises TypeError, because the None produced by the handler
chain is passed straight into _fix_default_info which subscripts it; the
items path returns the raw None without error. -/
theorem c4_no_handler_local_query :
    get_info_local c4_info_plugin (some "x@h") none () =
      Except.error PyErr.typeError ∧
    get_items_local c4_items_plugin (some "x@h") none () = Except.ok none :=
  ⟨rfl, rfl⟩

/-- Claim C2: on a payload whose node is empty, default-injection turns
an empty identity set into exactly the one generic identity, component
kind in component mode and client kind otherwise, and an empty feature
set into exactly the disco#info namespace; a payload with a non-empty
node is returned unchanged. -/
theorem c2_default_injection (ic : Bool) (i : DiscoInfo) :
    ∃ r, fix_default_info ic (some i) = Except.ok r ∧
      (i.node = "" → i.identities = [] →
        r.identities =
          [if ic then ("component", "generic", none, none)
           else ("client", "bot", none, none)]) ∧
      (i.node = "" → i.features = [] → r.features = [disco_info_ns]) ∧
      (i.node ≠ "" → r = i) := by
  refine ⟨_, rfl, ?_, ?_, ?_⟩
  · intro hn hi
    cases ic <;> simp [hn, hi, apply_ite]
  · intro hn hf
    cases ic <;> simp [hn, hf, apply_ite]
  · intro hn
    simp [hn]

/-- Closed instance of the default-injection claim on the empty
node-less payload in client mode. -/
theorem c2_default_injection_witness :
    ∃ r, fix_default_info false (some emptyInfo) = Except.ok r ∧
      r.identities = [("client", "bot", none, none)] ∧
      r.features = [disco_info_ns] := by
  obtain ⟨r, h1, h2, h3, _⟩ := c2_default_injection false emptyInfo
  exact ⟨r, h1, by simpa using h2 rfl rfl, h3 rfl rfl⟩

/-- add_item with an empty item JID does not fail: at a concrete input
it succeeds and inserts an item carrying the own full bound JID as
address, refuting the claimed InvalidArgument failure. -/
theorem c6_counterexample :
    add_item c6_plugin { nodes := [] } "" "Lib" none "books" none =
      Except.ok { nodes := [(("me@h", ""),
        { identities := [], features := [],
          items := [("me@h/r", "books", "Lib")] })] } := rfl

/-- Claim C6 as amended: an empty item address is replaced by the own
full bound JID before the handler runs, so the call behaves exactly as
if that JID had been passed; when the resolved handler is the static
store operation, the call succeeds and the item is stored under the own
full bound JID as its address, and no error is raised. -/
theorem c6_empty_item_address (p : DiscoPlugin AddItemHandler) (st : Store)
    (name : String) (node : Option String) (subnode : String)
    (ijid : Option String) :
    add_item p st "" name node subnode ijid =
      add_item p st p.boundjid_full name node subnode ijid ∧
    (∀ j n, p.boundjid_full ≠ "" →
      run_node_handler_resolve p "add_item" ijid node =
        Except.ok (some (store_add_item, j, n)) →
      ∃ q, add_item p st "" name node subnode ijid = Except.ok q ∧
        getItemName q (j, n) (p.boundjid_full, subnode) = some name) := by
  constructor
  · simp [add_item]
  · intro j n hb hres
    unfold add_item
    rw [hres]
    exact store_add_item_spec j n
      { ijid := p.boundjid_full, name := name, inode := subnode } st hb

/-- Closed instance of the empty-item-address behaviour on the static
store. -/
theorem c6_empty_item_address_witness :
    ∃ q, add_item c6_plugin { nodes := [] } "" "Lib" none "books" none =
        Except.ok q ∧
      getItemName q ("me@h", "") ("me@h/r", "books") = some "Lib" :=
  (c6_empty_item_address c6_plugin { nodes := [] } "Lib" none "books" none).2
    "me@h" "" (by decide) rfl

/-- A handler that raises makes the inbound disco#info dispatcher
propagate the exception before any reply is sent, refuting the claim
that a reply is always produced. -/
theorem c7_counterexample :
    handle_disco_info_get c7_raising_plugin "x@h/r" "x@h" "" () =
      Except.error PyErr.handlerError := rfl

/-- Claim C7 as amended: whenever the handler invocation returns
normally, the inbound disco#info and disco#items dispatchers do send a
reply, an empty one when the handler chain produced None; only a raising
handler escapes unanswered. -/
theorem c7_reply_on_normal_return {D : Type} (pI : DiscoPlugin (InfoHandler D))
    (pX : DiscoPlugin (ItemsHandler D)) (toFull toBare qn : String) (d : D)
    (rI : Option DiscoInfo) (rX : Option DiscoItems)
    (hI : run_node_handler_get_info pI
      (some (if pI.xmpp_is_component then toFull else toBare)) (some qn) d =
      Except.ok rI)
    (hX : run_node_handler_get_items pX
      (some (if pX.xmpp_is_component then toFull else toBare)) (some qn) d =
      Except.ok rX) :
    (∃ pay, handle_disco_info_get pI toFull toBare qn d = Except.ok pay ∧
      (rI = none → pay = none)) ∧
    handle_disco_items_get pX toFull toBare qn d = Except.ok rX := by
  constructor
  · unfold handle_disco_info_get
    rw [hI]
    cases rI with
    | none => exact ⟨none, rfl, fun _ => rfl⟩
    | some i => exact ⟨_, rfl, fun h => Option.noConfusion h⟩
  · unfold handle_disco_items_get
    rw [hX]

/-- Closed instance of the reply-on-normal-return behaviour. -/
theorem c7_reply_on_normal_return_witness :
    (∃ pay, handle_disco_info_get c7_info_plugin "x@h/r" "x@h" "" () =
        Except.ok pay ∧ ((none : Option DiscoInfo) = none → pay = none)) ∧
    handle_disco_items_get c7_items_plugin "x@h/r" "x@h" "" () = Except.ok none :=
  c7_reply_on_normal_return c7_info_plugin c7_items_plugin "x@h/r" "x@h" "" ()
    none none rfl rfl

/-- A handler returning a payload object with empty identity and
feature sets still yields a reply with a payload, and default-injection
is applied to it, refuting the claim that an empty handler result
produces a payload-less reply with no injection. -/
theorem c10_counterexample :
    handle_disco_info_get c10_plugin "x@h/r" "x@h" "" () =
      Except.ok (some
        { node := "",
          identities := [("client", "bot", none, none)],
          features := [disco_info_ns] }) := rfl

/-- Claim C10 as amended: the inbound disco#info reply carries no
payload exactly when the handler chain produced None; whenever the
handler returned a payload object, even an entirely empty one, the
reply carries that payload with default-injection applied. -/
theorem c10_reply_payload {D : Type} (p : DiscoPlugin (InfoHandler D))
    (toFull toBare qn : String) (d : D) (i : DiscoInfo) :
    (run_node_handler_get_info p
      (some (if p.xmpp_is_component then toFull else toBare)) (some qn) d =
        Except.ok none →
      handle_disco_info_get p toFull toBare qn d = Except.ok none) ∧
    (run_node_handler_get_info p
      (some (if p.xmpp_is_component then toFull else toBare)) (some qn) d =
        Except.ok (some i) →
      ∃ fixed, fix_default_info p.xmpp_is_component (some i) = Except.ok fixed ∧
        handle_disco_info_get p toFull toBare qn d = Except.ok (some fixed)) := by
  constructor
  · intro h
    unfold handle_disco_info_get
    rw [h]
  · intro h
    unfold handle_disco_info_get
    rw [h]
    exact ⟨_, rfl, rfl⟩

/-- Closed instance of the reply-payload behaviour on an empty handler
result. -/
theorem c10_reply_payload_witness :
    ∃ fixed, fix_default_info c10_plugin.xmpp_is_component (some emptyInfo) =
        Except.ok fixed ∧
      handle_disco_info_get c10_plugin "x@h/r" "x@h" "" () =
        Except.ok (some fixed) :=
  (c10_reply_payload c10_plugin "x@h/r" "x@h" "" () emptyInfo).2 rfl
